import Mathlib

set_option maxRecDepth 4000

/-!
Shallow embedding of `src/main.py` (FastAPI patient-record CRUD service).

Numbers: Python `float` values for height/weight/bmi are modelled as
exact rationals (`ℚ`); Python `round(x, 2)` (round-half-to-even) is
modelled by `pyRound`/`round2` below.

The JSON store (`patients.json`) is modelled as an insertion-ordered
association list from patient id to the stored attribute mapping, since
Python dicts preserve insertion order.  Each endpoint is modelled as a
pure function from the loaded store (and request data) to an
`Except ApiError` result; a successful result of a mutating endpoint
carries the store that `save_data` persists, and an error result means
the handler raised before `save_data`, leaving the persisted store as it
was.
-/

/-- The `gender` field of `Patient`: `Literal['male','female','other']`
(src/main.py line 14). -/
inductive Gender
  | male
  | female
  | other
deriving DecidableEq, Repr

/-- Python `round` to the nearest integer, ties to even (banker's
rounding), on exact rationals. -/
def pyRound (q : ℚ) : ℤ :=
  if q - Int.floor q < 1 / 2 then Int.floor q
  else if 1 / 2 < q - Int.floor q then Int.floor q + 1
  else if Int.floor q % 2 = 0 then Int.floor q else Int.floor q + 1

/-- Python `round(x, 2)`: round to two decimal places. -/
def round2 (q : ℚ) : ℚ := (pyRound (q * 100) : ℚ) / 100

/-- The validated `Patient` pydantic model (src/main.py lines 9-16).
Field types follow the annotations; the only value-level constraint the
source declares is the `Literal` type of `gender`. -/
structure Patient where
  id : String
  name : String
  city : String
  age : Int
  gender : Gender
  height : ℚ
  weight : ℚ
deriving DecidableEq, Repr

/-- Computed field `Patient.bmi` (src/main.py lines 18-21):
`round(self.weight / (self.height ** 2), 2)`. -/
def Patient.bmi (p : Patient) : ℚ := round2 (p.weight / p.height ^ 2)

/-- The if/elif chain of the computed field `Patient.verdict` as a
function of the (rounded) bmi value (src/main.py lines 25-33). -/
def computeVerdict (bmi : ℚ) : String :=
  if bmi < 18.5 then "Underweight"
  else if 18.5 ≤ bmi ∧ bmi < 24.9 then "Normal weight"
  else if 25 ≤ bmi ∧ bmi < 29.9 then "Overweight"
  else "Obesity"

/-- Computed field `Patient.verdict` (src/main.py lines 23-33). -/
def Patient.verdict (p : Patient) : String := computeVerdict p.bmi

/-- The patient from the spec's worked example: id `P001`,
height `1.55`, weight `70.0` (remaining base fields arbitrary). -/
def examplePatient : Patient :=
  { id := "P001", name := "John Doe", city := "New York", age := 30
    gender := Gender.male, height := 1.55, weight := 70.0 }

/-- The stored attribute mapping for one patient: the result of
`patient.model_dump(exclude=['id'])` (src/main.py lines 102, 130).
`model_dump` serializes every declared and computed field except the
excluded `id`, so the stored value carries `bmi` and `verdict` as last
computed. -/
structure StoredPatient where
  name : String
  city : String
  age : Int
  gender : Gender
  height : ℚ
  weight : ℚ
  bmi : ℚ
  verdict : String
deriving DecidableEq, Repr

/-- `patient.model_dump(exclude=['id'])`: the stored mapping for a
validated `Patient`, with the computed fields evaluated. -/
def Patient.dumpNoId (p : Patient) : StoredPatient :=
  { name := p.name, city := p.city, age := p.age, gender := p.gender
    height := p.height, weight := p.weight
    bmi := p.bmi, verdict := p.verdict }

/-- The contents of `patients.json`: an insertion-ordered mapping from
patient id to stored attributes (Python dicts preserve insertion
order). -/
abbrev Store := List (String × StoredPatient)

/-- Membership/lookup of a key in the store dict (`patient_id in data`,
`data[patient_id]`). -/
def findEntry (pid : String) : Store → Option StoredPatient
  | [] => none
  | (k, v) :: rest => if k = pid then some v else findEntry pid rest

/-- Python `data[pid] = v` when `pid` is already a key: the entry is
replaced in place, keeping its position in the dict order. -/
def setEntry (data : Store) (pid : String) (v : StoredPatient) : Store :=
  data.map fun kv => if kv.1 = pid then (pid, v) else kv

/-- The error outcomes the handlers can raise (each one aborts the
request before `save_data`, so the persisted store is unchanged). -/
inductive ApiError
  | notFound
  | conflict
  | invalidSortField
  | invalidOrder
  | validationError
deriving DecidableEq, Repr

/-- Handler `view_patient` for `GET /patient/{patient_id}`
(src/main.py lines 71-76): returns the stored mapping, or 404. -/
def view_patient (data : Store) (patient_id : String) : Except ApiError StoredPatient :=
  match findEntry patient_id data with
  | some r => Except.ok r
  | none => Except.error ApiError.notFound

/-- Handler `create_patient` for `POST /create`
(src/main.py lines 91-107): rejects a duplicate id with 400 before
saving; otherwise stores `patient.model_dump(exclude=['id'])` under
`patient.id` (a fresh dict key is appended at the end) and saves. -/
def create_patient (data : Store) (patient : Patient) : Except ApiError Store :=
  if (findEntry patient.id data).isSome then Except.error ApiError.conflict
  else Except.ok (data ++ [(patient.id, patient.dumpNoId)])

/-- Handler `delete_patient` for `DELETE /delete/{patient_id}`
(src/main.py lines 139-154). -/
def delete_patient (data : Store) (patient_id : String) : Except ApiError Store :=
  if (findEntry patient_id data).isSome then
    Except.ok (data.filter fun kv => !(kv.1 = patient_id : Bool))
  else Except.error ApiError.notFound

/-- The key `x[sort_by]` used by `sort_patients` (src/main.py line 88):
the field's currently stored value (`age` compares as a number). -/
def sortKeyVal (sort_by : String) (r : StoredPatient) : ℚ :=
  if sort_by = "height" then r.height
  else if sort_by = "weight" then r.weight
  else if sort_by = "bmi" then r.bmi
  else (r.age : ℚ)

/-- The comparison `sorted(..., key=lambda x: x[sort_by], reverse=(order == 'desc'))`
realises: Python's stable sort places `a` before `b` when
`key a ≤ key b` (ascending) or `key b ≤ key a` (descending), keeping
equal keys in original order. -/
def sortRel (order sort_by : String) (a b : StoredPatient) : Prop :=
  if order = "desc" then sortKeyVal sort_by b ≤ sortKeyVal sort_by a
  else sortKeyVal sort_by a ≤ sortKeyVal sort_by b

instance (o f : String) : DecidableRel (sortRel o f) := fun a b =>
  inferInstanceAs (Decidable (if o = "desc" then sortKeyVal f b ≤ sortKeyVal f a
    else sortKeyVal f a ≤ sortKeyVal f b))

/-- Handler `sort_patients` for `GET /sort` (src/main.py lines 78-89):
validates `sort_by` against the allow-list and `order` against
asc/desc (both 400), then stably sorts `data.values()`. -/
def sort_patients (data : Store) (sort_by order : String) : Except ApiError (List StoredPatient) :=
  if ¬ (sort_by ∈ (["height", "weight", "bmi", "age"] : List String)) then
    Except.error ApiError.invalidSortField
  else if ¬ (order ∈ (["asc", "desc"] : List String)) then
    Except.error ApiError.invalidOrder
  else
    Except.ok (List.insertionSort (sortRel order sort_by) (data.map Prod.snd))

/-- The `PatientUpdate` pydantic model (src/main.py lines 35-42): every
field is `Optional` with default `None`.  `model_dump(exclude_unset=True)`
distinguishes a field the request body never mentioned (outer `none`)
from a field the caller explicitly set (outer `some`) — and an explicit
value may itself be JSON `null` (inner `none`), which is distinct from
the field being absent. -/
structure PatientUpdate where
  id : Option (Option String) := none
  name : Option (Option String) := none
  city : Option (Option String) := none
  age : Option (Option Int) := none
  gender : Option (Option Gender) := none
  height : Option (Option ℚ) := none
  weight : Option (Option ℚ) := none
deriving DecidableEq, Repr

/-- One step of the merge loop (src/main.py lines 122-123): a field
present in `model_dump(exclude_unset=True)` overwrites the stored value,
an absent field keeps it. -/
def mergeField {α : Type} (u : Option (Option α)) (e : α) : Option α :=
  match u with
  | some v => v
  | none => some e

/-- The dict `existing_patient` after the merge loop of
src/main.py lines 119-123, field by field.  The stored dict has no `id`
key, so `id` is present only if the update explicitly set one. -/
structure MergedCandidate where
  id : Option String
  name : Option String
  city : Option String
  age : Option Int
  gender : Option Gender
  height : Option ℚ
  weight : Option ℚ
deriving DecidableEq, Repr

/-- The merge loop `for key, value in updated_patient.items(): existing_patient[key] = value`
(src/main.py lines 119-123) applied to the stored record.  The stored
`bmi`/`verdict` keys also sit in the dict but are ignored as extra
kwargs when `Patient(**existing_patient)` is built, so they are not
carried here. -/
def mergeDict (e : StoredPatient) (u : PatientUpdate) : MergedCandidate :=
  { id := match u.id with | some v => v | none => none
    name := mergeField u.name e.name
    city := mergeField u.city e.city
    age := mergeField u.age e.age
    gender := mergeField u.gender e.gender
    height := mergeField u.height e.height
    weight := mergeField u.weight e.weight }

/-- `existing_patient['id'] = patient_id` (src/main.py line 126): the id
is force-set to the path parameter after the merge. -/
def forceId (c : MergedCandidate) (patient_id : String) : MergedCandidate :=
  { c with id := some patient_id }

/-- `Patient(**existing_patient)` (src/main.py line 127): pydantic
validation of the merged dict.  The update's own fields were already
type-checked when the request body was parsed, so at this point
validation fails exactly when a required field holds `None` (a field the
caller explicitly set to `null`). -/
def validateCandidate (c : MergedCandidate) : Except ApiError Patient :=
  match c.id, c.name, c.city, c.age, c.gender, c.height, c.weight with
  | some i, some n, some ci, some a, some g, some h, some w =>
      Except.ok { id := i, name := n, city := ci, age := a, gender := g
                  height := h, weight := w }
  | _, _, _, _, _, _, _ => Except.error ApiError.validationError

/-- Handler `edit_patient` for `PUT /edit/{patient_id}`
(src/main.py lines 109-137): 404 when the id is absent; otherwise merge
the explicitly-set update fields into the stored dict, force the id back
to `patient_id`, re-validate as a `Patient` (recomputing `bmi` and
`verdict`), store its dump under the same key and save.  A validation
failure aborts before `save_data`. -/
def edit_patient (data : Store) (patient_id : String) (u : PatientUpdate) :
    Except ApiError Store :=
  match findEntry patient_id data with
  | none => Except.error ApiError.notFound
  | some existing =>
      match validateCandidate (forceId (mergeDict existing u) patient_id) with
      | Except.error e => Except.error e
      | Except.ok p => Except.ok (setEntry data patient_id p.dumpNoId)

/-- A candidate request body for `POST /create` whose primitive fields
already carry the annotated primitive types, with `gender` still the raw
string the caller sent. -/
structure RawCandidate where
  id : String
  name : String
  city : String
  age : Int
  gender : String
  height : ℚ
  weight : ℚ
deriving DecidableEq, Repr

/-- Parsing of the `Literal['male','female','other']` annotation
(src/main.py line 14). -/
def parseGender (s : String) : Option Gender :=
  if s = "male" then some Gender.male
  else if s = "female" then some Gender.female
  else if s = "other" then some Gender.other
  else none

/-- Pydantic validation of a `Patient` request body (src/main.py
lines 9-16).  Field presence and primitive types are enforced by the
annotations (carried here by the types of `RawCandidate`); the only
value-level constraint the model declares is the `gender` literal —
no range constraint on `age`, `height` or `weight` appears in the
source. -/
def validatePatient (c : RawCandidate) : Except ApiError Patient :=
  match parseGender c.gender with
  | some g => Except.ok { id := c.id, name := c.name, city := c.city, age := c.age
                          gender := g, height := c.height, weight := c.weight }
  | none => Except.error ApiError.validationError

/-- Consistency of a stored record's derived fields with its current
base attributes (§3 invariant). -/
def consistentDerived (s : StoredPatient) : Prop :=
  s.bmi = round2 (s.weight / s.height ^ 2) ∧ s.verdict = computeVerdict s.bmi

/-! ### Helper lemmas -/

lemma dumpNoId_consistent (p : Patient) : consistentDerived p.dumpNoId :=
  ⟨rfl, rfl⟩

lemma validateCandidate_ok {c : MergedCandidate} {p : Patient}
    (h : validateCandidate c = Except.ok p) :
    c.id = some p.id ∧ c.name = some p.name ∧ c.city = some p.city ∧
    c.age = some p.age ∧ c.gender = some p.gender ∧
    c.height = some p.height ∧ c.weight = some p.weight := by
  rcases c with ⟨i, n, ci, a, g, hh, w⟩
  cases i <;> cases n <;> cases ci <;> cases a <;> cases g <;> cases hh <;> cases w <;>
    simp only [validateCandidate] at h <;>
    first
      | exact Except.noConfusion h
      | (injection h with h; subst h; exact ⟨rfl, rfl, rfl, rfl, rfl, rfl, rfl⟩)

lemma findEntry_append_of_none {pid : String} {v : StoredPatient} :
    ∀ {data : Store}, findEntry pid data = none →
      findEntry pid (data ++ [(pid, v)]) = some v
  | [], _ => by simp [findEntry]
  | (k, w) :: rest, h => by
      rw [findEntry] at h
      by_cases hk : k = pid
      · rw [if_pos hk] at h; cases h
      · rw [if_neg hk] at h
        simpa [findEntry, hk] using findEntry_append_of_none h

/-! ### C1 -/

/-- C1: for every record with positive height and weight, the derived
bmi is `round(weight / height^2, 2)`; for the worked example with
height 1.55 and weight 70.0 the bmi is 29.14 and the verdict is
"Overweight". -/
theorem C1_bmi_formula_and_example :
    (∀ p : Patient, 0 < p.height → 0 < p.weight →
      p.bmi = round2 (p.weight / p.height ^ 2)) ∧
    examplePatient.bmi = 29.14 ∧ examplePatient.verdict = "Overweight" :=
  ⟨fun _ _ _ => rfl, by with_unfolding_all decide, by with_unfolding_all decide⟩

/-- Witness for C1 at the worked example. -/
theorem C1_bmi_formula_and_example_w :
    examplePatient.bmi = round2 (examplePatient.weight / examplePatient.height ^ 2) :=
  C1_bmi_formula_and_example.1 examplePatient (by with_unfolding_all decide)
    (by with_unfolding_all decide)

/-! ### C2 -/

/-- C2: the verdict is the exact piecewise function of §4.2 —
"Underweight" below 18.5, "Normal weight" on [18.5, 24.9),
"Overweight" on [25, 29.9), and "Obesity" otherwise, so the whole gap
[24.9, 25) and everything from 29.9 up fall to "Obesity". -/
theorem C2_verdict_piecewise (b : ℚ) :
    (b < 18.5 → computeVerdict b = "Underweight") ∧
    (18.5 ≤ b → b < 24.9 → computeVerdict b = "Normal weight") ∧
    (25 ≤ b → b < 29.9 → computeVerdict b = "Overweight") ∧
    (24.9 ≤ b → b < 25 → computeVerdict b = "Obesity") ∧
    (29.9 ≤ b → computeVerdict b = "Obesity") ∧
    (¬ b < 18.5 → ¬ (18.5 ≤ b ∧ b < 24.9) → ¬ (25 ≤ b ∧ b < 29.9) →
      computeVerdict b = "Obesity") := by
  refine ⟨fun h => ?_, fun h h2 => ?_, fun h h2 => ?_, fun h h2 => ?_,
    fun h => ?_, fun h h2 h3 => ?_⟩
  · rw [computeVerdict, if_pos h]
  · rw [computeVerdict, if_neg (by linarith), if_pos ⟨h, h2⟩]
  · rw [computeVerdict, if_neg (by linarith),
      if_neg (by rintro ⟨-, h4⟩; linarith), if_pos ⟨h, h2⟩]
  · rw [computeVerdict, if_neg (by linarith),
      if_neg (by rintro ⟨-, h4⟩; linarith), if_neg (by rintro ⟨h4, -⟩; linarith)]
  · rw [computeVerdict, if_neg (by linarith),
      if_neg (by rintro ⟨-, h4⟩; linarith), if_neg (by rintro ⟨-, h4⟩; linarith)]
  · rw [computeVerdict, if_neg h, if_neg h2, if_neg h3]

/-- Witness for C2: a bmi inside [25, 29.9) is "Overweight" and a bmi
inside the gap [24.9, 25) is "Obesity". -/
theorem C2_verdict_piecewise_w :
    computeVerdict 29.14 = "Overweight" ∧ computeVerdict 24.95 = "Obesity" :=
  ⟨(C2_verdict_piecewise 29.14).2.2.1 (by with_unfolding_all decide)
      (by with_unfolding_all decide),
    (C2_verdict_piecewise 24.95).2.2.2.1 (by with_unfolding_all decide)
      (by with_unfolding_all decide)⟩

/-! ### C3 -/

/-- A create body violating the §3 numeric ranges (age < 0) but with a
valid gender literal. -/
def negativeAgeCandidate : RawCandidate :=
  { id := "P002", name := "A", city := "B", age := -1, gender := "male"
    height := 1.55, weight := 70 }

/-- C3 counterexample: the claim says validation fails with
`ValidationError` whenever `age < 0`, but the pydantic model declares no
range constraint, so this candidate with age `-1` validates
successfully. -/
theorem C3_counterexample :
    negativeAgeCandidate.age < 0 ∧
    validatePatient negativeAgeCandidate =
      Except.ok { id := "P002", name := "A", city := "B", age := -1
                  gender := Gender.male, height := 1.55, weight := 70 } :=
  ⟨by decide, rfl⟩

/-- C3 (amended): validation of a candidate whose fields already have
the annotated primitive types succeeds iff `gender` is one of the three
enum literals; the numeric ranges of §3 (age ≥ 0, height > 0,
weight > 0) are not enforced by the model, and a candidate meeting all
the §3 constraints (hence with a valid gender) validates
successfully. -/
theorem C3_validation_gender_only (c : RawCandidate) :
    ((validatePatient c).isOk = true ↔
      (c.gender = "male" ∨ c.gender = "female" ∨ c.gender = "other")) ∧
    (¬ (c.gender = "male" ∨ c.gender = "female" ∨ c.gender = "other") →
      validatePatient c = Except.error ApiError.validationError) := by
  unfold validatePatient parseGender
  by_cases h1 : c.gender = "male"
  · simp [h1, Except.isOk, Except.toBool]
  · by_cases h2 : c.gender = "female"
    · simp [h1, h2, Except.isOk, Except.toBool]
    · by_cases h3 : c.gender = "other"
      · simp [h1, h2, h3, Except.isOk, Except.toBool]
      · simp [h1, h2, h3, Except.isOk, Except.toBool]

/-- Witness for C3 (amended): a candidate with gender "bad" is rejected
with a `ValidationError`. -/
theorem C3_validation_gender_only_w :
    validatePatient { negativeAgeCandidate with gender := "bad" } =
      Except.error ApiError.validationError :=
  (C3_validation_gender_only _).2 (by decide)

/-! ### C4 -/

/-- C4: when the merged dict validates into a record, every base field
the caller explicitly set carries the update's value, and every base
field absent from the update keeps the existing record's value; a field
explicitly set to `null` (distinct from absent) also carries the
update's value, so no valid record can result from it. -/
theorem C4_merge_overwrites_set_keeps_absent (e : StoredPatient) (u : PatientUpdate)
    (pid : String) (p : Patient)
    (h : validateCandidate (forceId (mergeDict e u) pid) = Except.ok p) :
    ((∀ v, u.name = some (some v) → p.name = v) ∧ (u.name = none → p.name = e.name) ∧
      u.name ≠ some none) ∧
    ((∀ v, u.city = some (some v) → p.city = v) ∧ (u.city = none → p.city = e.city) ∧
      u.city ≠ some none) ∧
    ((∀ v, u.age = some (some v) → p.age = v) ∧ (u.age = none → p.age = e.age) ∧
      u.age ≠ some none) ∧
    ((∀ v, u.gender = some (some v) → p.gender = v) ∧ (u.gender = none → p.gender = e.gender) ∧
      u.gender ≠ some none) ∧
    ((∀ v, u.height = some (some v) → p.height = v) ∧ (u.height = none → p.height = e.height) ∧
      u.height ≠ some none) ∧
    ((∀ v, u.weight = some (some v) → p.weight = v) ∧ (u.weight = none → p.weight = e.weight) ∧
      u.weight ≠ some none) := by
  obtain ⟨-, hn, hc, ha, hg, hh, hw⟩ := validateCandidate_ok h
  have hn' : mergeField u.name e.name = some p.name := hn
  have hc' : mergeField u.city e.city = some p.city := hc
  have ha' : mergeField u.age e.age = some p.age := ha
  have hg' : mergeField u.gender e.gender = some p.gender := hg
  have hh' : mergeField u.height e.height = some p.height := hh
  have hw' : mergeField u.weight e.weight = some p.weight := hw
  refine ⟨⟨fun v hv => ?_, fun hv => ?_, fun hv => ?_⟩,
    ⟨fun v hv => ?_, fun hv => ?_, fun hv => ?_⟩,
    ⟨fun v hv => ?_, fun hv => ?_, fun hv => ?_⟩,
    ⟨fun v hv => ?_, fun hv => ?_, fun hv => ?_⟩,
    ⟨fun v hv => ?_, fun hv => ?_, fun hv => ?_⟩,
    ⟨fun v hv => ?_, fun hv => ?_, fun hv => ?_⟩⟩
  · rw [hv] at hn'; exact (Option.some.inj hn').symm
  · rw [hv] at hn'; exact (Option.some.inj hn').symm
  · rw [hv] at hn'; exact Option.noConfusion hn'
  · rw [hv] at hc'; exact (Option.some.inj hc').symm
  · rw [hv] at hc'; exact (Option.some.inj hc').symm
  · rw [hv] at hc'; exact Option.noConfusion hc'
  · rw [hv] at ha'; exact (Option.some.inj ha').symm
  · rw [hv] at ha'; exact (Option.some.inj ha').symm
  · rw [hv] at ha'; exact Option.noConfusion ha'
  · rw [hv] at hg'; exact (Option.some.inj hg').symm
  · rw [hv] at hg'; exact (Option.some.inj hg').symm
  · rw [hv] at hg'; exact Option.noConfusion hg'
  · rw [hv] at hh'; exact (Option.some.inj hh').symm
  · rw [hv] at hh'; exact (Option.some.inj hh').symm
  · rw [hv] at hh'; exact Option.noConfusion hh'
  · rw [hv] at hw'; exact (Option.some.inj hw').symm
  · rw [hv] at hw'; exact (Option.some.inj hw').symm
  · rw [hv] at hw'; exact Option.noConfusion hw'

/-- A concrete update body that explicitly sets `name` and `weight` and
leaves every other field absent. -/
def updNameWeight : PatientUpdate :=
  { name := some (some "Jane Doe"), weight := some (some 72) }

/-- The record the merge of `updNameWeight` into the stored example
produces. -/
def mergedExamplePatient : Patient :=
  { id := "P001", name := "Jane Doe", city := "New York", age := 30
    gender := Gender.male, height := 1.55, weight := 72 }

/-- Witness for C4 at a concrete merge: the explicitly set `name` takes
the update's value and the absent `age` keeps the stored value. -/
theorem C4_merge_overwrites_set_keeps_absent_w :
    mergedExamplePatient.name = "Jane Doe" ∧
    mergedExamplePatient.age = examplePatient.dumpNoId.age :=
  ⟨(C4_merge_overwrites_set_keeps_absent examplePatient.dumpNoId updNameWeight
      "P001" mergedExamplePatient rfl).1.1 "Jane Doe" rfl,
    (C4_merge_overwrites_set_keeps_absent examplePatient.dumpNoId updNameWeight
      "P001" mergedExamplePatient rfl).2.2.1.2.1 rfl⟩

/-! ### C5 -/

/-- C5: whenever the merge of a partial update into an existing record
validates into a record, its `id` is the existing record's id (the path
parameter), even when the update explicitly supplies a different id. -/
theorem C5_merge_preserves_id (e : StoredPatient) (u : PatientUpdate)
    (pid : String) (p : Patient)
    (h : validateCandidate (forceId (mergeDict e u) pid) = Except.ok p) :
    p.id = pid := by
  obtain ⟨hid, -, -, -, -, -, -⟩ := validateCandidate_ok h
  have hid' : some pid = some p.id := hid
  exact (Option.some.inj hid').symm

/-- Witness for C5: an update that explicitly sets `id := "HACK"` still
merges to a record with the original id. -/
theorem C5_merge_preserves_id_w :
    ({ id := "P001", name := "John Doe", city := "New York", age := 30
       gender := Gender.male, height := 1.55, weight := 70.0 } : Patient).id = "P001" :=
  C5_merge_preserves_id examplePatient.dumpNoId { id := some (some "HACK") } "P001" _ rfl

/-! ### C6 -/

/-- C6: starting from a store whose records all have derived values
consistent with their height/weight, every store a successful create or
edit persists again has all derived values consistent — the freshly
stored record's `bmi`/`verdict` are recomputed from the merged
height/weight. -/
theorem C6_derived_always_consistent (data : Store)
    (hdata : ∀ kv ∈ data, consistentDerived kv.2) :
    (∀ (p : Patient) (data2 : Store), create_patient data p = Except.ok data2 →
      ∀ kv ∈ data2, consistentDerived kv.2) ∧
    (∀ (pid : String) (u : PatientUpdate) (data2 : Store),
      edit_patient data pid u = Except.ok data2 →
      ∀ kv ∈ data2, consistentDerived kv.2) := by
  constructor
  · intro p data2 h kv hkv
    unfold create_patient at h
    split at h
    · exact Except.noConfusion h
    · injection h with h
      subst h
      rcases List.mem_append.1 hkv with hold | hnew
      · exact hdata kv hold
      · rcases List.mem_singleton.1 hnew with rfl
        exact dumpNoId_consistent p
  · intro pid u data2 h kv hkv
    unfold edit_patient at h
    split at h
    · exact Except.noConfusion h
    · split at h
      · exact Except.noConfusion h
      · injection h with h
        subst h
        rcases List.mem_map.1 hkv with ⟨kv0, hkv0, rfl⟩
        by_cases hk : kv0.1 = pid
        · simpa [hk] using dumpNoId_consistent _
        · simpa [hk] using hdata kv0 hkv0

/-- Witness for C6: creating the worked example in the empty store
stores consistent derived values for it. -/
theorem C6_derived_always_consistent_w :
    consistentDerived examplePatient.dumpNoId :=
  (C6_derived_always_consistent [] (by simp)).1 examplePatient
    [("P001", examplePatient.dumpNoId)] rfl ("P001", examplePatient.dumpNoId)
    (by simp)

/-! ### C7 -/

/-- C7: a successful create of `p` followed by a read of `p.id` returns
the stored mapping for `p`: base attributes equal to `p`'s and derived
attributes computed from `p`'s height and weight. -/
theorem C7_create_then_get (data : Store) (p : Patient) (data2 : Store)
    (h : create_patient data p = Except.ok data2) :
    view_patient data2 p.id = Except.ok p.dumpNoId ∧
    p.dumpNoId.name = p.name ∧ p.dumpNoId.city = p.city ∧
    p.dumpNoId.age = p.age ∧ p.dumpNoId.gender = p.gender ∧
    p.dumpNoId.height = p.height ∧ p.dumpNoId.weight = p.weight ∧
    p.dumpNoId.bmi = round2 (p.weight / p.height ^ 2) ∧
    p.dumpNoId.verdict = computeVerdict (round2 (p.weight / p.height ^ 2)) := by
  unfold create_patient at h
  split at h
  · exact Except.noConfusion h
  · injection h with h
    subst h
    have hnone : findEntry p.id data = none := by
      rcases hfind : findEntry p.id data with - | s
      · rfl
      · rename_i hcond
        rw [hfind] at hcond
        exact absurd rfl hcond
    refine ⟨?_, rfl, rfl, rfl, rfl, rfl, rfl, rfl, rfl⟩
    unfold view_patient
    rw [findEntry_append_of_none hnone]

/-- Witness for C7: create the worked example in the empty store, then
read it back. -/
theorem C7_create_then_get_w :
    view_patient [("P001", examplePatient.dumpNoId)] examplePatient.id =
      Except.ok examplePatient.dumpNoId :=
  (C7_create_then_get [] examplePatient [("P001", examplePatient.dumpNoId)] rfl).1

/-! ### C8 -/

instance (o f : String) : IsTotal StoredPatient (sortRel o f) :=
  ⟨by
    intro a b
    unfold sortRel
    split_ifs
    · exact le_total _ _
    · exact le_total _ _⟩

instance (o f : String) : IsTrans StoredPatient (sortRel o f) :=
  ⟨by
    intro a b c hab hbc
    unfold sortRel at hab hbc ⊢
    by_cases h : o = "desc"
    · rw [if_pos h] at hab hbc ⊢
      exact le_trans hbc hab
    · rw [if_neg h] at hab hbc ⊢
      exact le_trans hab hbc⟩

lemma sortRel_not_rel_key_ne {o f : String} {a b : StoredPatient}
    (h : ¬ sortRel o f a b) : sortKeyVal f a ≠ sortKeyVal f b := by
  unfold sortRel at h
  by_cases ho : o = "desc"
  · rw [if_pos ho] at h
    exact ne_of_lt (not_le.1 h)
  · rw [if_neg ho] at h
    exact ne_of_gt (not_le.1 h)

lemma filter_orderedInsert {α : Type} (key : α → ℚ) (r : α → α → Prop)
    [DecidableRel r] (hr : ∀ a b, ¬ r a b → key a ≠ key b) (k : ℚ) (a : α) :
    ∀ l : List α,
      (List.orderedInsert r a l).filter (fun x => decide (key x = k)) =
        if key a = k then a :: l.filter (fun x => decide (key x = k))
        else l.filter (fun x => decide (key x = k))
  | [] => by
      by_cases hk : key a = k <;> simp [List.orderedInsert, List.filter, hk]
  | b :: l => by
      rw [List.orderedInsert]
      by_cases hab : r a b
      · rw [if_pos hab]
        by_cases hk : key a = k <;> simp [List.filter_cons, hk]
      · rw [if_neg hab]
        have hne := hr a b hab
        by_cases hk : key a = k
        · have hbk : ¬ key b = k := fun hbk => hne (hk.trans hbk.symm)
          rw [if_pos hk, List.filter_cons, List.filter_cons,
            filter_orderedInsert key r hr k a l, if_pos hk]
          simp [hbk]
        · rw [if_neg hk, List.filter_cons, List.filter_cons,
            filter_orderedInsert key r hr k a l, if_neg hk]

lemma filter_insertionSort {α : Type} (key : α → ℚ) (r : α → α → Prop)
    [DecidableRel r] (hr : ∀ a b, ¬ r a b → key a ≠ key b) (k : ℚ) :
    ∀ l : List α,
      (List.insertionSort r l).filter (fun x => decide (key x = k)) =
        l.filter (fun x => decide (key x = k))
  | [] => rfl
  | a :: l => by
      rw [List.insertionSort, filter_orderedInsert key r hr k a,
        filter_insertionSort key r hr k l, List.filter_cons]
      by_cases hk : key a = k <;> simp [hk]

/-- C8: for every store and every allowed field and order, the sort
endpoint succeeds and returns the stored records sorted by that field's
current value — ascending unless the order is `desc` — as a stable
permutation of the store's iteration order: for every key value, the
records carrying it appear exactly in their original store order. -/
theorem C8_sort_stable_by_field (data : Store) (f ord : String)
    (hf : f ∈ (["height", "weight", "bmi", "age"] : List String))
    (ho : ord ∈ (["asc", "desc"] : List String)) :
    sort_patients data f ord =
      Except.ok (List.insertionSort (sortRel ord f) (data.map Prod.snd)) ∧
    List.Perm (List.insertionSort (sortRel ord f) (data.map Prod.snd))
      (data.map Prod.snd) ∧
    (ord = "desc" →
      (List.insertionSort (sortRel ord f) (data.map Prod.snd)).Sorted
        (fun a b => sortKeyVal f b ≤ sortKeyVal f a)) ∧
    (ord ≠ "desc" →
      (List.insertionSort (sortRel ord f) (data.map Prod.snd)).Sorted
        (fun a b => sortKeyVal f a ≤ sortKeyVal f b)) ∧
    (∀ k : ℚ,
      (List.insertionSort (sortRel ord f) (data.map Prod.snd)).filter
          (fun s => decide (sortKeyVal f s = k)) =
        (data.map Prod.snd).filter (fun s => decide (sortKeyVal f s = k))) := by
  refine ⟨?_, List.perm_insertionSort _ _, ?_, ?_, ?_⟩
  · unfold sort_patients
    rw [if_neg (not_not_intro hf), if_neg (not_not_intro ho)]
  · intro hdesc
    have hs := List.sorted_insertionSort (sortRel ord f) (data.map Prod.snd)
    refine hs.imp fun {a b} hab => ?_
    unfold sortRel at hab
    rwa [if_pos hdesc] at hab
  · intro hdesc
    have hs := List.sorted_insertionSort (sortRel ord f) (data.map Prod.snd)
    refine hs.imp fun {a b} hab => ?_
    unfold sortRel at hab
    rwa [if_neg hdesc] at hab
  · intro k
    exact filter_insertionSort (sortKeyVal f) (sortRel ord f)
      (fun a b hab => sortRel_not_rel_key_ne hab) k (data.map Prod.snd)

/-- Three stored records with ages 30, 25, 40 in store order (the §8
example). -/
def agedStored (n : String) (a : Int) : StoredPatient :=
  { name := n, city := "X", age := a, gender := Gender.other
    height := 1.7, weight := 70, bmi := 24.22, verdict := "Normal weight" }

/-- The store holding ages [30, 25, 40] in insertion order. -/
def ageStore : Store :=
  [("A1", agedStored "a" 30), ("A2", agedStored "b" 25), ("A3", agedStored "c" 40)]

/-- Witness for C8: sorting the [30, 25, 40] store by age descending
yields ages [40, 30, 25], and the stability filter holds at key 30. -/
theorem C8_sort_stable_by_field_w :
    sort_patients ageStore "age" "desc" =
      Except.ok [agedStored "c" 40, agedStored "a" 30, agedStored "b" 25] ∧
    (List.insertionSort (sortRel "desc" "age") (ageStore.map Prod.snd)).filter
        (fun s => decide (sortKeyVal "age" s = 30)) =
      (ageStore.map Prod.snd).filter (fun s => decide (sortKeyVal "age" s = 30)) := by
  refine ⟨?_, (C8_sort_stable_by_field ageStore "age" "desc" (by decide)
    (by decide)).2.2.2.2 30⟩
  have h1 := (C8_sort_stable_by_field ageStore "age" "desc" (by decide)
    (by decide)).1
  rw [h1]
  exact congrArg Except.ok (by with_unfolding_all decide)

/-! ### C9 -/

/-- C9: creating a record whose id is already a key of the store fails
with a conflict error (nothing is persisted: the handler raises before
`save_data`); creating a record with a fresh id appends the stored
mapping — the dump without the id — under that id and persists the
result. -/
theorem C9_create_conflict_or_insert (data : Store) (p : Patient) :
    ((findEntry p.id data).isSome = true →
      create_patient data p = Except.error ApiError.conflict) ∧
    (findEntry p.id data = none →
      create_patient data p = Except.ok (data ++ [(p.id, p.dumpNoId)])) := by
  constructor
  · intro h
    unfold create_patient
    rw [if_pos h]
  · intro h
    unfold create_patient
    rw [if_neg]
    rw [h]
    exact Bool.false_ne_true

/-- Witness for C9: creating `P001` twice — the second create conflicts,
the first one inserts. -/
theorem C9_create_conflict_or_insert_w :
    create_patient [("P001", examplePatient.dumpNoId)] examplePatient =
      Except.error ApiError.conflict ∧
    create_patient [] examplePatient =
      Except.ok [("P001", examplePatient.dumpNoId)] :=
  ⟨(C9_create_conflict_or_insert [("P001", examplePatient.dumpNoId)]
      examplePatient).1 rfl,
    (C9_create_conflict_or_insert [] examplePatient).2 rfl⟩

/-! ### C10 -/

/-- C10: editing an absent id fails with the not-found error (404), and
editing an existing record with an update whose merged result fails
validation fails with the validation error; in both cases the handler
raises before `save_data`, so the persisted store stays as of the last
successful save. -/
theorem C10_edit_failure_modes (data : Store) (pid : String) (u : PatientUpdate) :
    (findEntry pid data = none →
      edit_patient data pid u = Except.error ApiError.notFound) ∧
    (∀ e : StoredPatient, findEntry pid data = some e →
      validateCandidate (forceId (mergeDict e u) pid) =
        Except.error ApiError.validationError →
      edit_patient data pid u = Except.error ApiError.validationError) := by
  constructor
  · intro h
    simp only [edit_patient, h]
  · intro e he hv
    simp only [edit_patient, he, hv]

/-- Witness for C10: editing a missing id 404s, and an update that
explicitly sets `height := null` merges to an invalid record and is
rejected. -/
theorem C10_edit_failure_modes_w :
    edit_patient [] "P404" { name := some (some "X") } =
      Except.error ApiError.notFound ∧
    edit_patient [("P001", examplePatient.dumpNoId)] "P001"
        { height := some none } =
      Except.error ApiError.validationError :=
  ⟨(C10_edit_failure_modes [] "P404" { name := some (some "X") }).1 rfl,
    (C10_edit_failure_modes [("P001", examplePatient.dumpNoId)] "P001"
      { height := some none }).2 examplePatient.dumpNoId rfl rfl⟩
